import Mathlib

/-!
Shallow embedding of the `cournot-skills` repository (plugin `cournot-por`):
the gateway client (`plugins/cournot-por/src/client.ts`), the step sequencer
(`plugins/cournot-por/src/pipeline.ts`), the zod response schemas
(`plugins/cournot-por/src/schemas.ts`) and the report builder
(`src/report.ts`, shipped concatenated with `src/cli.ts`).

JavaScript strings are modelled as `List Char`, JSON values as the inductive
`JVal`, and the async control flow of `GatewayClient.call` as a fuel-bounded
recursion that also records a trace of observable effects (sleeps and
outbound transport requests).
-/

set_option maxRecDepth 4000

/-- Strings of the JavaScript runtime, modelled as lists of characters. -/
abbrev Str := List Char

/-- Decimal rendering of a natural number (JS template interpolation of a number). -/
def natStr (n : Nat) : Str := (Nat.repr n).data

/-- Lower-casing of a string (JS `String.prototype.toLowerCase`, ASCII-faithful). -/
def lowerStr (s : Str) : Str := s.map Char.toLower

/-- JS `String.prototype.startsWith`. -/
def startsWithStr (p s : Str) : Bool := p.isPrefixOf s

/-- JS `String.prototype.includes`: `needle` occurs as a contiguous substring of `hay`. -/
def containsSub (needle : Str) : Str → Bool
  | [] => needle.isEmpty
  | a :: t => needle.isPrefixOf (a :: t) || containsSub needle t

/-- The fixed redaction marker of `redactCode` (client.ts line 14). -/
def marker : Str := "[REDACTED]".data

/-- Left-to-right, non-overlapping replacement of every occurrence of `c` by `r`.
This is the semantics of `text.replace(new RegExp(escaped, 'g'), r)` in
client.ts lines 13-14: since every pattern metacharacter of `c` is escaped
(line 13), the regex denotes the literal string `c`, and a global replace
scans left to right replacing each non-overlapping occurrence. -/
def replaceAll (c r : Str) : Str → Str
  | [] => []
  | a :: t =>
    if c ≠ [] ∧ c.isPrefixOf (a :: t) then
      r ++ replaceAll c r (t.drop (c.length - 1))
    else
      a :: replaceAll c r t
termination_by l => l.length
decreasing_by
  · simp only [List.length_drop, List.length_cons]
    omega
  · simp

/-- Embedding of `redactCode` (client.ts lines 11-15): empty credential is a
no-op (`if (!code) return text`), otherwise every literal occurrence of the
credential is replaced by the marker. -/
def redactCode (text code : Str) : Str :=
  if code = [] then text else replaceAll code marker text

theorem containsSub_false_cons {c : Str} {a : Char} {t : Str}
    (h : containsSub c (a :: t) = false) :
    c.isPrefixOf (a :: t) = false ∧ containsSub c t = false := by
  simpa [containsSub, Bool.or_eq_false_iff] using h

theorem replaceAll_of_not_contains {c r : Str} :
    ∀ {t : Str}, containsSub c t = false → replaceAll c r t = t
  | [], _ => by simp [replaceAll]
  | a :: t, h => by
    obtain ⟨h1, h2⟩ := containsSub_false_cons h
    rw [replaceAll]
    rw [if_neg]
    · rw [replaceAll_of_not_contains h2]
    · intro hc
      rw [hc.2] at h1
      exact Bool.noConfusion h1

theorem replaceAll_first_occurrence {c r : Str} (hc : c ≠ []) :
    ∀ (x y : Str), (∀ i < x.length, c.isPrefixOf ((x ++ c ++ y).drop i) = false) →
      replaceAll c r (x ++ c ++ y) = x ++ r ++ replaceAll c r y := by
  intro x
  induction x with
  | nil =>
    intro y _
    obtain ⟨c0, c', rfl⟩ : ∃ c0 c', c = c0 :: c' := by
      cases c with
      | nil => exact absurd rfl hc
      | cons c0 c' => exact ⟨c0, c', rfl⟩
    have hpre : (c0 :: c').isPrefixOf ((c0 :: c') ++ y) = true :=
      List.isPrefixOf_iff_prefix.mpr (List.prefix_append (c0 :: c') y)
    rw [List.nil_append, List.cons_append, replaceAll]
    rw [if_pos ⟨by simp, hpre⟩]
    have hdrop : (c' ++ y).drop ((c0 :: c').length - 1) = y := by
      simp [List.drop_left]
    rw [hdrop]
    simp
  | cons a x' ih =>
    intro y hno
    have h0 : c.isPrefixOf (a :: (x' ++ c ++ y)) = false := by
      have := hno 0 (by simp)
      simpa using this
    rw [List.cons_append, List.cons_append, replaceAll]
    rw [if_neg]
    · rw [show x' ++ c ++ y = x' ++ c ++ y from rfl]
      rw [ih y ?_]
      · simp
      · intro i hi
        have := hno (i + 1) (by simpa using Nat.succ_lt_succ hi)
        simpa using this
    · intro hcontra
      rw [hcontra.2] at h0
      exact Bool.noConfusion h0

/-- C1: `redactCode(t, c)` replaces every literal occurrence of `c` in `t`
with the fixed marker `"[REDACTED]"` (left-to-right, non-overlapping, the
semantics of a global regex replace with all metacharacters escaped), and
returns `t` unchanged when `c` is the empty string.  The three conjuncts
characterise the function completely: empty credential is the identity, a
text with no occurrence is unchanged, and a text whose first occurrence of
`c` follows a prefix `x` maps to `x ++ marker ++` the redaction of the rest. -/
theorem redactCode_replaces_every_occurrence (t c : Str) :
    (c = [] → redactCode t c = t) ∧
    (containsSub c t = false → redactCode t c = t) ∧
    (∀ x y, c ≠ [] → t = x ++ c ++ y →
      (∀ i < x.length, c.isPrefixOf (t.drop i) = false) →
      redactCode t c = x ++ marker ++ redactCode y c) := by
  refine ⟨fun h => by simp [redactCode, h], fun h => ?_, fun x y hc ht hno => ?_⟩
  · by_cases hc : c = []
    · simp [redactCode, hc]
    · rw [redactCode, if_neg hc]
      exact replaceAll_of_not_contains h
  · subst ht
    rw [redactCode, if_neg hc, redactCode, if_neg hc]
    exact replaceAll_first_occurrence hc x y hno

/-- Witness for C1: the credential `"a+b"` (which contains the regex
metacharacter `+`) is redacted literally inside `"zza+bw"`. -/
theorem redactCode_replaces_every_occurrence_witness :
    redactCode ("zz".data ++ "a+b".data ++ "w".data) "a+b".data =
      "zz".data ++ marker ++ redactCode "w".data "a+b".data :=
  (redactCode_replaces_every_occurrence ("zz".data ++ "a+b".data ++ "w".data)
    "a+b".data).2.2 "zz".data "w".data (by decide) (by decide) (by decide)

/-! ## JSON values

JSON data exchanged with the gateway.  Numbers are modelled as exact
rationals (`confidence: 0.85` and friends are only carried around, never
computed with). -/

/-- A JSON value as produced by `response.json()` / consumed by `JSON.stringify`. -/
inductive JVal where
  | null : JVal
  | bool (b : Bool) : JVal
  | num (q : Rat) : JVal
  | str (s : Str) : JVal
  | arr (xs : List JVal) : JVal
  | obj (fields : List (Str × JVal)) : JVal

/-- First-match lookup of a key in an object's field list (JS property access). -/
def lookupF (fields : List (Str × JVal)) (k : Str) : Option JVal :=
  match fields with
  | [] => none
  | (k', v) :: rest => if k' = k then some v else lookupF rest k

/-- Whether an object's field list carries a key (JS `'k' in obj`). -/
def hasKeyF (fields : List (Str × JVal)) (k : Str) : Bool :=
  (lookupF fields k).isSome

/-- Property access `v.k` on an arbitrary value: objects look the key up,
everything else (including arrays, whose named properties are absent for
JSON data) yields JS `undefined`, modelled as `none`. -/
def recordLookup (v : JVal) (k : Str) : Option JVal :=
  match v with
  | .obj fs => lookupF fs k
  | _ => none

/-- JS nullish-coalescing chain `v.k1 ?? v.k2 ?? …`: the first key whose
value is present and not `null` wins; a chain of only missing/null keys
yields `none` (the code never distinguishes a trailing `null` from
`undefined`). -/
def firstNotNullish (v : JVal) : List Str → Option JVal
  | [] => none
  | k :: ks =>
    match recordLookup v k with
    | some .null => firstNotNullish v ks
    | some x => some x
    | none => firstNotNullish v ks

/-- JS truthiness of a value (`undefined`/`null`/`false`/`0`/`''` are falsy). -/
def truthy : Option JVal → Bool
  | none => false
  | some .null => false
  | some (.bool b) => b
  | some (.num q) => !(q = 0)
  | some (.str s) => !(s = [])
  | some (.arr _) => true
  | some (.obj _) => true

/-- JS `typeof v === 'object' && v !== null`: objects and arrays qualify. -/
def isObjectLike : JVal → Bool
  | .obj _ => true
  | .arr _ => true
  | _ => false

/-- Embedding of `asOptionalString` (report.ts): a string value passes
through, anything else (including a missing value) becomes `undefined`. -/
def asOptionalString : Option JVal → Option Str
  | some (.str s) => some s
  | _ => none

/-- Hexadecimal digit for the `\u00XX` escapes of `JSON.stringify`. -/
def hexDigit (n : Nat) : Char :=
  if n < 10 then Char.ofNat (48 + n) else Char.ofNat (87 + n)

/-- Escape of a single character inside a JSON string literal, following
`JSON.stringify`: quote, backslash and the named control escapes, then
`\u00XX` for the remaining control characters. -/
def escapeChar (c : Char) : Str :=
  if c = '"' then "\\\"".data
  else if c = '\\' then "\\\\".data
  else if c = '\n' then "\\n".data
  else if c = '\r' then "\\r".data
  else if c = '\t' then "\\t".data
  else if c = '\x08' then "\\b".data
  else if c = '\x0c' then "\\f".data
  else if c.toNat < 32 then
    "\\u00".data ++ [hexDigit (c.toNat / 16), hexDigit (c.toNat % 16)]
  else [c]

/-- A JSON string literal: quotes around the escaped characters. -/
def quoteStr (s : Str) : Str :=
  "\"".data ++ (s.map escapeChar).flatten ++ "\"".data

/-- Rendering of a JSON number.  Integers render as in JS; the decimal
formatting of non-integer rationals is abstracted (no claim ever compares
the serialized form of a non-integer number). -/
def numLit (q : Rat) : Str :=
  if q.den = 1 then (Int.repr q.num).data
  else (Int.repr q.num).data ++ "/".data ++ natStr q.den

mutual

/-- Embedding of `JSON.stringify` on JSON values: compact rendering with
object fields in insertion order, as used for the envelope body and for
`post_data` (client.ts lines 25 and 85) and for reasoning fallbacks
(report.ts line 185). -/
def jsonStringify : JVal → Str
  | .null => "null".data
  | .bool true => "true".data
  | .bool false => "false".data
  | .num q => numLit q
  | .str s => quoteStr s
  | .arr xs => "[".data ++ stringifyElems xs ++ "]".data
  | .obj fs => "\x7b".data ++ stringifyFields fs ++ "\x7d".data

/-- Comma-separated rendering of array elements. -/
def stringifyElems : List JVal → Str
  | [] => []
  | [x] => jsonStringify x
  | x :: y :: rest => jsonStringify x ++ ",".data ++ stringifyElems (y :: rest)

/-- Comma-separated rendering of object fields. -/
def stringifyFields : List (Str × JVal) → Str
  | [] => []
  | [(k, v)] => quoteStr k ++ ":".data ++ jsonStringify v
  | (k, v) :: p :: rest =>
    quoteStr k ++ ":".data ++ jsonStringify v ++ ",".data ++ stringifyFields (p :: rest)

end

/-! ## Gateway client (`client.ts`) -/

/-- The fixed gateway endpoint (client.ts line 3). -/
def GATEWAY_URL : Str := "https://interface.cournot.ai/play/polymarket/ai_data".data

/-- Maximum attempt count (client.ts line 4). -/
def MAX_RETRIES : Nat := 3

/-- Per-attempt timeout in milliseconds (client.ts line 5). -/
def TIMEOUT_MS : Nat := 300000

/-- The wire request shape sent to the gateway (client.ts `GatewayEnvelope`). -/
structure GatewayEnvelope where
  code : Str
  post_data : Str
  path : Str
  method : Str
deriving DecidableEq

/-- Embedding of `buildEnvelope` (client.ts lines 17-29): the payload is
serialized to a string before being embedded (`post_data`). -/
def buildEnvelope (code path method : Str) (payload : JVal) : GatewayEnvelope :=
  { code := code, post_data := jsonStringify payload, path := path, method := method }

/-- The envelope rendered as a JSON object, field order as declared in the
object literal of client.ts lines 23-28. -/
def envelopeJson (e : GatewayEnvelope) : JVal :=
  .obj [("code".data, .str e.code), ("post_data".data, .str e.post_data),
        ("path".data, .str e.path), ("method".data, .str e.method)]

/-- The outbound HTTP request as observed by the injected `fetchFn`. -/
structure TransportRequest where
  url : Str
  httpMethod : Str
  contentType : Str
  body : Str
deriving DecidableEq

/-- The fetch options built in client.ts lines 82-87: always POST to the
fixed URL with a JSON content type, body the serialized envelope. -/
def wireRequest (env : GatewayEnvelope) : TransportRequest :=
  { url := GATEWAY_URL, httpMethod := "POST".data,
    contentType := "application/json".data, body := jsonStringify (envelopeJson env) }

/-- A JS `Error` object as far as the client inspects it: `name` and `message`. -/
structure JsError where
  name : Str
  message : Str
deriving DecidableEq

/-- An error created by `new Error(msg)` (its `name` is `'Error'`). -/
def mkError (msg : Str) : JsError := { name := "Error".data, message := msg }

/-- An HTTP response as far as the client inspects it: status, body text
(read on failure) and decoded JSON body (read on success). -/
structure HttpResponse where
  status : Nat
  bodyText : Str
  bodyJson : JVal

/-- The `Response.ok` flag of the Fetch API: status in the range 200-299. -/
def respOk (r : HttpResponse) : Bool := 200 ≤ r.status && r.status ≤ 299

/-- Embedding of `isTransientError` (client.ts lines 31-33). -/
def isTransientError (status : Nat) : Bool :=
  500 ≤ status || status = 429 || status = 408

/-- Embedding of `isNetworkError` (client.ts lines 35-47): abort, or a
lower-cased message containing one of the connectivity indicators.  The
`err instanceof Error` guard always holds here since every thrown value is
modelled as a `JsError`. -/
def isNetworkError (e : JsError) : Bool :=
  let msg := lowerStr e.message
  e.name = "AbortError".data ||
  containsSub "fetch".data msg ||
  containsSub "network".data msg ||
  containsSub "econnrefused".data msg ||
  containsSub "econnreset".data msg ||
  containsSub "etimedout".data msg ||
  containsSub "socket".data msg

/-- One attempt's transport outcome: a resolved response or a thrown error. -/
inductive FetchOutcome where
  | success (resp : HttpResponse)
  | throwErr (e : JsError)

/-- Observable effects of a `call` invocation, in order: cooperative sleeps
and outbound transport requests (the request event also records the envelope
the wire body was built from). -/
inductive Event where
  | sleep (ms : Nat) : Event
  | request (env : GatewayEnvelope) (req : TransportRequest) : Event
deriving DecidableEq

/-- Result of one `call` invocation: the returned JSON body or the raised
error, together with the trace of observable effects. -/
structure CallOut where
  result : Except JsError JVal
  trace : List Event

/-- The backoff delay computed in client.ts line 72:
`Math.min(1000 * Math.pow(2, attempt), 10_000)`. -/
def backoff (attempt : Nat) : Nat := min (1000 * 2 ^ attempt) 10000

/-- The error message built for a non-ok HTTP status (client.ts lines 97-105). -/
def gatewayMsg (status : Nat) (path safeBody : Str) : Str :=
  "Gateway returned ".data ++ natStr status ++ " for ".data ++ path ++ ": ".data ++ safeBody

/-- The error message built for a network-level failure (client.ts lines 113-118). -/
def networkMsg (path msg : Str) : Str :=
  "Network error calling ".data ++ path ++ ": ".data ++ msg

/-- The defensive fallback message of client.ts line 126. -/
def exhaustedMsg (path : Str) : Str :=
  "Failed after ".data ++ natStr MAX_RETRIES ++ " retries for ".data ++ path

/-- The retry loop of `GatewayClient.call` (client.ts lines 70-124), indexed
by the current 0-based attempt and the remaining fuel (`MAX_RETRIES - attempt`).
Each iteration optionally sleeps (attempt > 0), issues the transport request,
and classifies the outcome exactly as the source does: ok status returns the
JSON body; non-ok transient status records a redacted-body error and
continues; non-ok fatal status raises that error (thrown at line 103, caught
at line 110, re-raised at line 122 because the message starts with
`'Gateway returned'`); a thrown error whose message does not start with
`'Gateway returned'` and which classifies as a network error records a
redacted message and continues, any other thrown error is re-raised. -/
def callGo (env : GatewayEnvelope) (req : TransportRequest)
    (fetchAt : Nat → FetchOutcome) : Nat → Nat → Option JsError → CallOut
  | _, 0, lastError =>
    { result := .error (lastError.getD (mkError (exhaustedMsg env.path))), trace := [] }
  | attempt, fuel + 1, _ =>
    let pre : List Event := if 0 < attempt then [.sleep (backoff attempt)] else []
    match fetchAt attempt with
    | .success resp =>
      if respOk resp then
        { result := .ok resp.bodyJson, trace := pre ++ [.request env req] }
      else
        let safeBody := redactCode resp.bodyText env.code
        let msg := gatewayMsg resp.status env.path safeBody
        if isTransientError resp.status then
          let rest := callGo env req fetchAt (attempt + 1) fuel (some (mkError msg))
          { result := rest.result, trace := pre ++ [.request env req] ++ rest.trace }
        else
          { result := .error (mkError msg), trace := pre ++ [.request env req] }
    | .throwErr e =>
      if startsWithStr "Gateway returned".data e.message then
        { result := .error e, trace := pre ++ [.request env req] }
      else if isNetworkError e then
        let ne := mkError (redactCode (networkMsg env.path e.message) env.code)
        let rest := callGo env req fetchAt (attempt + 1) fuel (some ne)
        { result := rest.result, trace := pre ++ [.request env req] ++ rest.trace }
      else
        { result := .error e, trace := pre ++ [.request env req] }

/-- Embedding of `GatewayClient.call` (client.ts lines 65-127).  The
transport is injected as `fetch`, a function of the global invocation index
(threaded by the caller through `start`) and of the request; this mirrors the
injectable `fetchFn` of `GatewayClientOptions`. -/
def GatewayClient.call (code path method : Str) (payload : JVal)
    (fetch : Nat → TransportRequest → FetchOutcome) (start : Nat) : CallOut :=
  let env := buildEnvelope code path method payload
  let req := wireRequest env
  callGo env req (fun a => fetch (start + a) req) 0 MAX_RETRIES none

/-- Number of transport attempts recorded in a trace. -/
def countRequests (tr : List Event) : Nat :=
  (tr.filter (fun ev => match ev with | .request _ _ => true | _ => false)).length

/-- The sleep durations recorded in a trace, in order. -/
def sleepsOf (tr : List Event) : List Nat :=
  tr.filterMap (fun ev => match ev with | .sleep ms => some ms | _ => none)

/-- The envelope paths of the transport attempts recorded in a trace, in order. -/
def requestPaths (tr : List Event) : List Str :=
  tr.filterMap (fun ev => match ev with | .request env _ => some env.path | _ => none)

/-- Events of the attempt with 0-based index `k`: its backoff sleep (absent
for the first attempt) followed by its transport request. -/
def attemptEvents (env : GatewayEnvelope) (req : TransportRequest) (k : Nat) : List Event :=
  (if 0 < k then [Event.sleep (backoff k)] else []) ++ [Event.request env req]

/-- The full trace of `m` consecutive attempts starting at index `a`. -/
def patternFrom (env : GatewayEnvelope) (req : TransportRequest) (a m : Nat) : List Event :=
  (List.range' a m).flatMap (attemptEvents env req)

theorem patternFrom_zero (env : GatewayEnvelope) (req : TransportRequest) (a : Nat) :
    patternFrom env req a 0 = [] := by
  simp [patternFrom]

theorem patternFrom_succ (env : GatewayEnvelope) (req : TransportRequest) (a m : Nat) :
    patternFrom env req a (m + 1) =
      attemptEvents env req a ++ patternFrom env req (a + 1) m := by
  rw [patternFrom, List.range'_succ a m 1, List.flatMap_cons, patternFrom]

/-- Shape of the retry loop's trace: some number `m` of consecutive attempts
starting at the given index, each preceded by its backoff sleep (except the
very first attempt of the call), with `1 ≤ m ≤ fuel` whenever fuel remains. -/
theorem callGo_trace_pattern (env : GatewayEnvelope) (req : TransportRequest)
    (fetchAt : Nat → FetchOutcome) :
    ∀ fuel attempt lastErr, ∃ m, m ≤ fuel ∧ (0 < fuel → 0 < m) ∧
      (callGo env req fetchAt attempt fuel lastErr).trace = patternFrom env req attempt m := by
  intro fuel
  induction fuel with
  | zero =>
    intro attempt lastErr
    exact ⟨0, Nat.le_refl 0, by omega, by simp [callGo, patternFrom]⟩
  | succ fuel ih =>
    intro attempt lastErr
    cases hf : fetchAt attempt with
    | success resp =>
      by_cases hok : respOk resp = true
      · refine ⟨1, by omega, by omega, ?_⟩
        simp [callGo, hf, hok, patternFrom_succ, patternFrom_zero, attemptEvents]
      · by_cases htr : isTransientError resp.status = true
        · obtain ⟨m, hm, _, htrace⟩ := ih (attempt + 1)
            (some (mkError (gatewayMsg resp.status env.path (redactCode resp.bodyText env.code))))
          refine ⟨m + 1, by omega, by omega, ?_⟩
          simp [callGo, hf, hok, htr, htrace, patternFrom_succ, attemptEvents]
        · refine ⟨1, by omega, by omega, ?_⟩
          simp [callGo, hf, hok, htr, patternFrom_succ, patternFrom_zero, attemptEvents]
    | throwErr e =>
      by_cases hgw : startsWithStr "Gateway returned".data e.message = true
      · refine ⟨1, by omega, by omega, ?_⟩
        simp [callGo, hf, hgw, patternFrom_succ, patternFrom_zero, attemptEvents]
      · by_cases hnet : isNetworkError e = true
        · obtain ⟨m, hm, _, htrace⟩ := ih (attempt + 1)
            (some (mkError (redactCode (networkMsg env.path e.message) env.code)))
          refine ⟨m + 1, by omega, by omega, ?_⟩
          simp [callGo, hf, hgw, hnet, htrace, patternFrom_succ, attemptEvents]
        · refine ⟨1, by omega, by omega, ?_⟩
          simp [callGo, hf, hgw, hnet, patternFrom_succ, patternFrom_zero, attemptEvents]

theorem containsSub_of_isPrefixOf {n m : Str} (h : n.isPrefixOf m = true) :
    containsSub n m = true := by
  cases m with
  | nil =>
    cases n with
    | nil => simp [containsSub]
    | cons a t => simp [List.isPrefixOf] at h
  | cons a t => simp [containsSub, h]

theorem containsSub_append_left {n t : Str} (h : containsSub n t = true) :
    ∀ x : Str, containsSub n (x ++ t) = true := by
  intro x
  induction x with
  | nil => simpa using h
  | cons a x' ih => simp [containsSub, ih]

theorem containsSub_mid (n x y : Str) : containsSub n (x ++ (n ++ y)) = true := by
  apply containsSub_append_left
  apply containsSub_of_isPrefixOf
  exact List.isPrefixOf_iff_prefix.mpr (List.prefix_append n y)

theorem transient_not_ok {r : HttpResponse} (h : isTransientError r.status = true) :
    respOk r = false := by
  simp [isTransientError] at h
  simp [respOk]
  omega

/-- Corrected C2 (counterexample part): against a transport that always
returns HTTP 500, the sleeps recorded before the second and third attempts
are 2000 ms and 4000 ms — not the 1000 ms and 2000 ms asserted by the claim
(`min(1000 * 2^1, 10000) = 2000` and `min(1000 * 2^2, 10000) = 4000`). -/
theorem call_backoff_values_counterexample :
    sleepsOf (GatewayClient.call "c".data "/p".data "POST".data .null
        (fun _ _ => .success { status := 500, bodyText := [], bodyJson := .null }) 0).trace
      = [2000, 4000] ∧ [2000, 4000] ≠ [1000, 2000] := by
  constructor
  · rfl
  · decide

/-- Amended C2: before every attempt after the first, the loop suspends for
`min(1000 * 2^attempt, 10000)` milliseconds; with attempt indices 1 and 2
that is 2000 ms before the second attempt and 4000 ms before the third
(total added backoff 2s + 4s), as the trace pattern shows: for every
transport the trace consists of 1 to 3 attempts, each attempt `k ≥ 1`
preceded by exactly one sleep of `backoff k`. -/
theorem call_backoff_schedule (code path method : Str) (payload : JVal)
    (fetch : Nat → TransportRequest → FetchOutcome) (start : Nat) :
    ∃ m, 1 ≤ m ∧ m ≤ MAX_RETRIES ∧
      (GatewayClient.call code path method payload fetch start).trace =
        patternFrom (buildEnvelope code path method payload)
          (wireRequest (buildEnvelope code path method payload)) 0 m ∧
      backoff 1 = 2000 ∧ backoff 2 = 4000 := by
  obtain ⟨m, hm, hpos, htr⟩ := callGo_trace_pattern
    (buildEnvelope code path method payload)
    (wireRequest (buildEnvelope code path method payload))
    (fun a => fetch (start + a) (wireRequest (buildEnvelope code path method payload)))
    MAX_RETRIES 0 none
  exact ⟨m, hpos (by decide), hm, htr, by decide, by decide⟩

/-- C4: a first response with a non-success, non-transient status makes the
call raise immediately after exactly one transport attempt, with the status
code and the credential-redacted body in the error message; no sleep, no
retry. -/
theorem call_fatal_status_no_retry (code path method : Str) (payload : JVal)
    (fetch : Nat → TransportRequest → FetchOutcome) (start : Nat) (resp : HttpResponse)
    (hf : fetch start (wireRequest (buildEnvelope code path method payload)) = .success resp)
    (hok : respOk resp = false) (htr : isTransientError resp.status = false) :
    (GatewayClient.call code path method payload fetch start).trace =
      [Event.request (buildEnvelope code path method payload)
        (wireRequest (buildEnvelope code path method payload))] ∧
    countRequests (GatewayClient.call code path method payload fetch start).trace = 1 ∧
    (GatewayClient.call code path method payload fetch start).result =
      .error (mkError (gatewayMsg resp.status path (redactCode resp.bodyText code))) := by
  have : GatewayClient.call code path method payload fetch start =
      { result := .error (mkError (gatewayMsg resp.status path (redactCode resp.bodyText code))),
        trace := [Event.request (buildEnvelope code path method payload)
          (wireRequest (buildEnvelope code path method payload))] } := by
    show callGo (buildEnvelope code path method payload)
        (wireRequest (buildEnvelope code path method payload))
        (fun a => fetch (start + a) (wireRequest (buildEnvelope code path method payload)))
        0 3 none =
      { result := .error (mkError (gatewayMsg resp.status path (redactCode resp.bodyText code))),
        trace := [Event.request (buildEnvelope code path method payload)
          (wireRequest (buildEnvelope code path method payload))] }
    rw [callGo]
    simp only [Nat.add_zero, Nat.lt_irrefl, if_false, hf]
    simp [hok, htr, buildEnvelope]
  rw [this]
  exact ⟨rfl, rfl, rfl⟩

/-- Witness for C4: a concrete 400 response is raised immediately with a
redacted body and a single attempt. -/
theorem call_fatal_status_no_retry_witness :
    (GatewayClient.call "k".data "/p".data "POST".data .null
        (fun _ _ => .success { status := 400, bodyText := "bad k".data, bodyJson := .null }) 0).trace =
      [Event.request (buildEnvelope "k".data "/p".data "POST".data .null)
        (wireRequest (buildEnvelope "k".data "/p".data "POST".data .null))] ∧
    countRequests (GatewayClient.call "k".data "/p".data "POST".data .null
        (fun _ _ => .success { status := 400, bodyText := "bad k".data, bodyJson := .null }) 0).trace = 1 ∧
    (GatewayClient.call "k".data "/p".data "POST".data .null
        (fun _ _ => .success { status := 400, bodyText := "bad k".data, bodyJson := .null }) 0).result =
      .error (mkError (gatewayMsg 400 "/p".data
        (redactCode "bad k".data "k".data))) :=
  call_fatal_status_no_retry "k".data "/p".data "POST".data .null
    (fun _ _ => .success { status := 400, bodyText := "bad k".data, bodyJson := .null }) 0
    { status := 400, bodyText := "bad k".data, bodyJson := .null }
    rfl (by decide) (by decide)

theorem callGo_ok_step {env : GatewayEnvelope} {req : TransportRequest}
    {fetchAt : Nat → FetchOutcome} {attempt fuel : Nat} {lastErr : Option JsError}
    {resp : HttpResponse} (hf : fetchAt attempt = .success resp)
    (hok : respOk resp = true) :
    callGo env req fetchAt attempt (fuel + 1) lastErr =
      { result := .ok resp.bodyJson,
        trace := (if 0 < attempt then [Event.sleep (backoff attempt)] else []) ++
          [Event.request env req] } := by
  rw [callGo]
  simp [hf, hok]

theorem callGo_transient_step {env : GatewayEnvelope} {req : TransportRequest}
    {fetchAt : Nat → FetchOutcome} {attempt fuel : Nat} {lastErr : Option JsError}
    {resp : HttpResponse} (hf : fetchAt attempt = .success resp)
    (htr : isTransientError resp.status = true) :
    callGo env req fetchAt attempt (fuel + 1) lastErr =
      { result := (callGo env req fetchAt (attempt + 1) fuel
          (some (mkError (gatewayMsg resp.status env.path
            (redactCode resp.bodyText env.code))))).result,
        trace := (if 0 < attempt then [Event.sleep (backoff attempt)] else []) ++
          [Event.request env req] ++
          (callGo env req fetchAt (attempt + 1) fuel
            (some (mkError (gatewayMsg resp.status env.path
              (redactCode resp.bodyText env.code))))).trace } := by
  rw [callGo]
  simp [hf, transient_not_ok htr, htr]

theorem callGo_network_step {env : GatewayEnvelope} {req : TransportRequest}
    {fetchAt : Nat → FetchOutcome} {attempt fuel : Nat} {lastErr : Option JsError}
    {e : JsError} (hf : fetchAt attempt = .throwErr e)
    (hgw : startsWithStr "Gateway returned".data e.message = false)
    (hnet : isNetworkError e = true) :
    callGo env req fetchAt attempt (fuel + 1) lastErr =
      { result := (callGo env req fetchAt (attempt + 1) fuel
          (some (mkError (redactCode (networkMsg env.path e.message) env.code)))).result,
        trace := (if 0 < attempt then [Event.sleep (backoff attempt)] else []) ++
          [Event.request env req] ++
          (callGo env req fetchAt (attempt + 1) fuel
            (some (mkError (redactCode (networkMsg env.path e.message) env.code)))).trace } := by
  rw [callGo]
  simp [hf, hgw, hnet]

theorem callGo_exhausted {env : GatewayEnvelope} {req : TransportRequest}
    {fetchAt : Nat → FetchOutcome} {attempt : Nat} {e : JsError} :
    callGo env req fetchAt attempt 0 (some e) = { result := .error e, trace := [] } := by
  rw [callGo]
  rfl

/-- C5: three consecutive transient statuses make the call perform exactly 3
transport attempts (with the two backoff sleeps in between) and then raise
the last recorded error, whose message contains the last observed status. -/
theorem call_transient_exhausted (code path method : Str) (payload : JVal)
    (fetch : Nat → TransportRequest → FetchOutcome) (start : Nat)
    (r0 r1 r2 : HttpResponse)
    (h0 : fetch start (wireRequest (buildEnvelope code path method payload)) = .success r0)
    (h1 : fetch (start + 1) (wireRequest (buildEnvelope code path method payload)) = .success r1)
    (h2 : fetch (start + 2) (wireRequest (buildEnvelope code path method payload)) = .success r2)
    (t0 : isTransientError r0.status = true)
    (t1 : isTransientError r1.status = true)
    (t2 : isTransientError r2.status = true) :
    countRequests (GatewayClient.call code path method payload fetch start).trace = 3 ∧
    (GatewayClient.call code path method payload fetch start).result =
      .error (mkError (gatewayMsg r2.status path (redactCode r2.bodyText code))) ∧
    ∀ e, (GatewayClient.call code path method payload fetch start).result = .error e →
      containsSub (natStr r2.status) e.message = true := by
  have hcall : GatewayClient.call code path method payload fetch start =
      { result := .error (mkError (gatewayMsg r2.status path (redactCode r2.bodyText code))),
        trace := [Event.request (buildEnvelope code path method payload)
            (wireRequest (buildEnvelope code path method payload)),
          Event.sleep (backoff 1),
          Event.request (buildEnvelope code path method payload)
            (wireRequest (buildEnvelope code path method payload)),
          Event.sleep (backoff 2),
          Event.request (buildEnvelope code path method payload)
            (wireRequest (buildEnvelope code path method payload))] } := by
    show callGo (buildEnvelope code path method payload)
        (wireRequest (buildEnvelope code path method payload))
        (fun a => fetch (start + a) (wireRequest (buildEnvelope code path method payload)))
        0 3 none = _
    rw [callGo_transient_step (by simpa using h0) t0,
        callGo_transient_step (by simpa using h1) t1,
        callGo_transient_step (by simpa using h2) t2,
        callGo_exhausted]
    simp [buildEnvelope]
  refine ⟨by rw [hcall]; rfl, by rw [hcall], ?_⟩
  intro e he
  rw [hcall] at he
  have : e = mkError (gatewayMsg r2.status path (redactCode r2.bodyText code)) := by
    simpa using he.symm
  rw [this]
  simp only [mkError, gatewayMsg]
  have := containsSub_mid (natStr r2.status) "Gateway returned ".data
    (" for ".data ++ path ++ ": ".data ++ redactCode r2.bodyText code)
  simpa using this

/-- Witness for C5: three concrete 500 responses exhaust the retries and the
raised message contains `"500"`. -/
theorem call_transient_exhausted_witness :
    countRequests (GatewayClient.call "k".data "/p".data "POST".data .null
        (fun _ _ => .success { status := 500, bodyText := "boom".data, bodyJson := .null }) 0).trace = 3 ∧
    (GatewayClient.call "k".data "/p".data "POST".data .null
        (fun _ _ => .success { status := 500, bodyText := "boom".data, bodyJson := .null }) 0).result =
      .error (mkError (gatewayMsg 500 "/p".data (redactCode "boom".data "k".data))) ∧
    ∀ e, (GatewayClient.call "k".data "/p".data "POST".data .null
        (fun _ _ => .success { status := 500, bodyText := "boom".data, bodyJson := .null }) 0).result = .error e →
      containsSub (natStr 500) e.message = true :=
  call_transient_exhausted "k".data "/p".data "POST".data .null
    (fun _ _ => .success { status := 500, bodyText := "boom".data, bodyJson := .null }) 0
    { status := 500, bodyText := "boom".data, bodyJson := .null }
    { status := 500, bodyText := "boom".data, bodyJson := .null }
    { status := 500, bodyText := "boom".data, bodyJson := .null }
    rfl rfl rfl (by decide) (by decide) (by decide)

/-- C6: with statuses `[500, 500, 200]` the call performs exactly 3 transport
attempts, sleeping the backoff delay before the second and the third, and
returns the decoded JSON body of the third response. -/
theorem call_recovers_after_two_transients (code path method : Str) (payload : JVal)
    (fetch : Nat → TransportRequest → FetchOutcome) (start : Nat)
    (r0 r1 r2 : HttpResponse)
    (h0 : fetch start (wireRequest (buildEnvelope code path method payload)) = .success r0)
    (h1 : fetch (start + 1) (wireRequest (buildEnvelope code path method payload)) = .success r1)
    (h2 : fetch (start + 2) (wireRequest (buildEnvelope code path method payload)) = .success r2)
    (s0 : r0.status = 500) (s1 : r1.status = 500) (s2 : r2.status = 200) :
    (GatewayClient.call code path method payload fetch start).trace =
      [Event.request (buildEnvelope code path method payload)
          (wireRequest (buildEnvelope code path method payload)),
        Event.sleep (backoff 1),
        Event.request (buildEnvelope code path method payload)
          (wireRequest (buildEnvelope code path method payload)),
        Event.sleep (backoff 2),
        Event.request (buildEnvelope code path method payload)
          (wireRequest (buildEnvelope code path method payload))] ∧
    countRequests (GatewayClient.call code path method payload fetch start).trace = 3 ∧
    (GatewayClient.call code path method payload fetch start).result = .ok r2.bodyJson := by
  have t0 : isTransientError r0.status = true := by simp [isTransientError, s0]
  have t1 : isTransientError r1.status = true := by simp [isTransientError, s1]
  have ok2 : respOk r2 = true := by simp [respOk, s2]
  have hcall : GatewayClient.call code path method payload fetch start =
      { result := .ok r2.bodyJson,
        trace := [Event.request (buildEnvelope code path method payload)
            (wireRequest (buildEnvelope code path method payload)),
          Event.sleep (backoff 1),
          Event.request (buildEnvelope code path method payload)
            (wireRequest (buildEnvelope code path method payload)),
          Event.sleep (backoff 2),
          Event.request (buildEnvelope code path method payload)
            (wireRequest (buildEnvelope code path method payload))] } := by
    show callGo (buildEnvelope code path method payload)
        (wireRequest (buildEnvelope code path method payload))
        (fun a => fetch (start + a) (wireRequest (buildEnvelope code path method payload)))
        0 3 none = _
    rw [callGo_transient_step (by simpa using h0) t0,
        callGo_transient_step (by simpa using h1) t1,
        callGo_ok_step (by simpa using h2) ok2]
    simp
  refine ⟨by rw [hcall], by rw [hcall]; rfl, by rw [hcall]⟩

/-- Witness for C6: concrete statuses 500, 500, 200 with a concrete success
body. -/
theorem call_recovers_after_two_transients_witness :
    (GatewayClient.call "k".data "/p".data "POST".data .null
        (fun n _ => if n < 2
          then .success { status := 500, bodyText := "err".data, bodyJson := .null }
          else .success { status := 200, bodyText := [], bodyJson := .str "done".data }) 0).trace =
      [Event.request (buildEnvelope "k".data "/p".data "POST".data .null)
          (wireRequest (buildEnvelope "k".data "/p".data "POST".data .null)),
        Event.sleep (backoff 1),
        Event.request (buildEnvelope "k".data "/p".data "POST".data .null)
          (wireRequest (buildEnvelope "k".data "/p".data "POST".data .null)),
        Event.sleep (backoff 2),
        Event.request (buildEnvelope "k".data "/p".data "POST".data .null)
          (wireRequest (buildEnvelope "k".data "/p".data "POST".data .null))] ∧
    countRequests (GatewayClient.call "k".data "/p".data "POST".data .null
        (fun n _ => if n < 2
          then .success { status := 500, bodyText := "err".data, bodyJson := .null }
          else .success { status := 200, bodyText := [], bodyJson := .str "done".data }) 0).trace = 3 ∧
    (GatewayClient.call "k".data "/p".data "POST".data .null
        (fun n _ => if n < 2
          then .success { status := 500, bodyText := "err".data, bodyJson := .null }
          else .success { status := 200, bodyText := [], bodyJson := .str "done".data }) 0).result =
      .ok (.str "done".data) :=
  call_recovers_after_two_transients "k".data "/p".data "POST".data .null
    (fun n _ => if n < 2
      then .success { status := 500, bodyText := "err".data, bodyJson := .null }
      else .success { status := 200, bodyText := [], bodyJson := .str "done".data }) 0
    { status := 500, bodyText := "err".data, bodyJson := .null }
    { status := 500, bodyText := "err".data, bodyJson := .null }
    { status := 200, bodyText := [], bodyJson := .str "done".data }
    rfl rfl rfl rfl rfl rfl

/-- Corrected C7 (counterexample part): the first attempt throws an exception
that is network-classified by the listed criteria (its message contains
`"socket"`), yet because the message happens to start with
`'Gateway returned'` the call re-raises it immediately: only 1 transport
attempt occurs and the success body of the waiting second response is never
returned. -/
theorem call_network_retry_counterexample :
    isNetworkError (mkError "Gateway returned socket hang up".data) = true ∧
    countRequests (GatewayClient.call "k".data "/p".data "POST".data .null
        (fun n _ => if n = 0
          then .throwErr (mkError "Gateway returned socket hang up".data)
          else .success { status := 200, bodyText := [], bodyJson := .str "ok".data }) 0).trace = 1 ∧
    (GatewayClient.call "k".data "/p".data "POST".data .null
        (fun n _ => if n = 0
          then .throwErr (mkError "Gateway returned socket hang up".data)
          else .success { status := 200, bodyText := [], bodyJson := .str "ok".data }) 0).result =
      .error (mkError "Gateway returned socket hang up".data) := by
  refine ⟨by decide, by decide, ?_⟩
  rfl

/-- Amended C7: if the first attempt throws a network-classified exception
whose message does not start with `'Gateway returned'` and the second
attempt returns a success status, the call performs exactly 2 transport
attempts and returns the decoded success body. -/
theorem call_network_then_success (code path method : Str) (payload : JVal)
    (fetch : Nat → TransportRequest → FetchOutcome) (start : Nat)
    (e : JsError) (r : HttpResponse)
    (h0 : fetch start (wireRequest (buildEnvelope code path method payload)) = .throwErr e)
    (hgw : startsWithStr "Gateway returned".data e.message = false)
    (hnet : isNetworkError e = true)
    (h1 : fetch (start + 1) (wireRequest (buildEnvelope code path method payload)) = .success r)
    (hok : respOk r = true) :
    countRequests (GatewayClient.call code path method payload fetch start).trace = 2 ∧
    (GatewayClient.call code path method payload fetch start).result = .ok r.bodyJson := by
  have hcall : GatewayClient.call code path method payload fetch start =
      { result := .ok r.bodyJson,
        trace := [Event.request (buildEnvelope code path method payload)
            (wireRequest (buildEnvelope code path method payload)),
          Event.sleep (backoff 1),
          Event.request (buildEnvelope code path method payload)
            (wireRequest (buildEnvelope code path method payload))] } := by
    show callGo (buildEnvelope code path method payload)
        (wireRequest (buildEnvelope code path method payload))
        (fun a => fetch (start + a) (wireRequest (buildEnvelope code path method payload)))
        0 3 none = _
    rw [callGo_network_step (by simpa using h0) hgw hnet,
        callGo_ok_step (by simpa using h1) hok]
    simp
  refine ⟨by rw [hcall]; rfl, by rw [hcall]⟩

/-- Witness for the amended C7: a concrete `fetch failed` network error
followed by a 200 response. -/
theorem call_network_then_success_witness :
    countRequests (GatewayClient.call "k".data "/p".data "POST".data .null
        (fun n _ => if n = 0
          then .throwErr (mkError "fetch failed: ECONNREFUSED".data)
          else .success { status := 200, bodyText := [], bodyJson := .str "ok".data }) 0).trace = 2 ∧
    (GatewayClient.call "k".data "/p".data "POST".data .null
        (fun n _ => if n = 0
          then .throwErr (mkError "fetch failed: ECONNREFUSED".data)
          else .success { status := 200, bodyText := [], bodyJson := .str "ok".data }) 0).result =
      .ok (.str "ok".data) :=
  call_network_then_success "k".data "/p".data "POST".data .null
    (fun n _ => if n = 0
      then .throwErr (mkError "fetch failed: ECONNREFUSED".data)
      else .success { status := 200, bodyText := [], bodyJson := .str "ok".data }) 0
    (mkError "fetch failed: ECONNREFUSED".data)
    { status := 200, bodyText := [], bodyJson := .str "ok".data }
    rfl (by decide) (by decide) rfl rfl

theorem mem_patternFrom_request {env : GatewayEnvelope} {req : TransportRequest}
    {e : GatewayEnvelope} {r : TransportRequest} {a m : Nat}
    (h : Event.request e r ∈ patternFrom env req a m) : e = env ∧ r = req := by
  rw [patternFrom] at h
  rw [List.mem_flatMap] at h
  obtain ⟨k, _, hk⟩ := h
  rw [attemptEvents, List.mem_append] at hk
  cases hk with
  | inl hpre =>
    by_cases h0 : 0 < k
    · simp [h0] at hpre
    · simp [h0] at hpre
  | inr hreq =>
    rw [List.mem_singleton] at hreq
    cases hreq
    exact ⟨rfl, rfl⟩

/-- C8: every outbound transport request issued by `GatewayClient.call` —
whatever the logical `method` argument, including `"GET"` — is an HTTP POST
to the fixed gateway URL with content type `application/json`, whose body is
the JSON-serialized envelope `{code, post_data, path, method}` in which
`post_data` is itself the JSON-serialized step payload (double encoding). -/
theorem call_request_always_post (code path method : Str) (payload : JVal)
    (fetch : Nat → TransportRequest → FetchOutcome) (start : Nat)
    (e : GatewayEnvelope) (r : TransportRequest)
    (hmem : Event.request e r ∈ (GatewayClient.call code path method payload fetch start).trace) :
    r.url = GATEWAY_URL ∧
    r.httpMethod = "POST".data ∧
    r.contentType = "application/json".data ∧
    r.body = jsonStringify (JVal.obj
      [("code".data, .str code),
       ("post_data".data, .str (jsonStringify payload)),
       ("path".data, .str path),
       ("method".data, .str method)]) := by
  obtain ⟨m, _, _, htr⟩ := callGo_trace_pattern
    (buildEnvelope code path method payload)
    (wireRequest (buildEnvelope code path method payload))
    (fun a => fetch (start + a) (wireRequest (buildEnvelope code path method payload)))
    MAX_RETRIES 0 none
  have hmem' : Event.request e r ∈ patternFrom (buildEnvelope code path method payload)
      (wireRequest (buildEnvelope code path method payload)) 0 m := by
    rw [← htr]
    exact hmem
  obtain ⟨he, hr⟩ := mem_patternFrom_request hmem'
  subst hr
  refine ⟨rfl, rfl, rfl, ?_⟩
  show jsonStringify (envelopeJson (buildEnvelope code path method payload)) = _
  rfl

/-- Witness for C8: a concrete call whose logical method is `"GET"` still
goes out as a POST with the doubly-encoded body. -/
theorem call_request_always_post_witness :
    (wireRequest (buildEnvelope "k".data "/capabilities".data "GET".data (.obj []))).url = GATEWAY_URL ∧
    (wireRequest (buildEnvelope "k".data "/capabilities".data "GET".data (.obj []))).httpMethod = "POST".data ∧
    (wireRequest (buildEnvelope "k".data "/capabilities".data "GET".data (.obj []))).contentType = "application/json".data ∧
    (wireRequest (buildEnvelope "k".data "/capabilities".data "GET".data (.obj []))).body =
      jsonStringify (JVal.obj
        [("code".data, .str "k".data),
         ("post_data".data, .str (jsonStringify (.obj []))),
         ("path".data, .str "/capabilities".data),
         ("method".data, .str "GET".data)]) :=
  call_request_always_post "k".data "/capabilities".data "GET".data (.obj [])
    (fun _ _ => .success { status := 200, bodyText := [], bodyJson := .null }) 0
    (buildEnvelope "k".data "/capabilities".data "GET".data (.obj []))
    (wireRequest (buildEnvelope "k".data "/capabilities".data "GET".data (.obj [])))
    (by rw [show (GatewayClient.call "k".data "/capabilities".data "GET".data (.obj [])
        (fun _ _ => .success { status := 200, bodyText := [], bodyJson := .null }) 0).trace =
          [Event.request (buildEnvelope "k".data "/capabilities".data "GET".data (.obj []))
            (wireRequest (buildEnvelope "k".data "/capabilities".data "GET".data (.obj [])))]
        from rfl]
        exact List.mem_singleton.mpr rfl)

/-! ## Response schemas (`schemas.ts`)

The zod schemas are embedded as boolean shape validators plus a parse
function.  A `z.unknown()` field accepts anything including an absent key;
`z.object` rejects non-objects (including null and arrays); `.passthrough()`
keeps unknown keys.  Parsing is modelled as validate-then-pass-through, with
the `.default(…)` fields appended when absent (zod's reconstruction of the
object is otherwise the identity on JSON data with these schemas). -/

/-- Shape test for `z.string()`. -/
def isStrV : JVal → Bool
  | .str _ => true
  | _ => false

/-- Shape test for `z.number()`. -/
def isNumV : JVal → Bool
  | .num _ => true
  | _ => false

/-- Shape test for `z.array(z.unknown())`. -/
def isArrV : JVal → Bool
  | .arr _ => true
  | _ => false

/-- Shape test for `z.array(z.string())`. -/
def isArrOfStrV : JVal → Bool
  | .arr xs => xs.all isStrV
  | _ => false

/-- An optional field: absent is fine, present must satisfy the shape. -/
def optField (fs : List (Str × JVal)) (k : Str) (p : JVal → Bool) : Bool :=
  match lookupF fs k with
  | none => true
  | some x => p x

/-- A required field: must be present and satisfy the shape. -/
def reqField (fs : List (Str × JVal)) (k : Str) (p : JVal → Bool) : Bool :=
  match lookupF fs k with
  | none => false
  | some x => p x

/-- Validator of `promptResponseSchema`: an object whose `market_id`, when
present, is a string (`prompt_spec`, `tool_plan`, `metadata` are unknown). -/
def promptValid : JVal → Bool
  | .obj fs => optField fs "market_id".data isStrV
  | _ => false

/-- Validator of `collectResponseSchema`. -/
def collectValid : JVal → Bool
  | .obj fs =>
    reqField fs "evidence_bundles".data isArrV &&
    optField fs "collectors_used".data isArrOfStrV &&
    optField fs "execution_logs".data isArrV &&
    optField fs "errors".data isArrV
  | _ => false

/-- Validator of `auditResponseSchema` (`reasoning_trace` is unknown). -/
def auditValid : JVal → Bool
  | .obj fs => optField fs "errors".data isArrV
  | _ => false

/-- Validator of `judgeResponseSchema`. -/
def judgeValid : JVal → Bool
  | .obj fs =>
    reqField fs "outcome".data isStrV &&
    reqField fs "confidence".data isNumV &&
    optField fs "errors".data isArrV
  | _ => false

/-- Validator of the nested `roots` object of `bundleResponseSchema`. -/
def rootsValid : JVal → Bool
  | .obj fs =>
    reqField fs "prompt_spec_hash".data isStrV &&
    reqField fs "evidence_root".data isStrV &&
    reqField fs "reasoning_root".data isStrV &&
    reqField fs "por_root".data isStrV
  | _ => false

/-- Validator of `bundleResponseSchema` (`por_bundle` is unknown). -/
def bundleValid : JVal → Bool
  | .obj fs =>
    reqField fs "por_root".data isStrV &&
    reqField fs "roots".data rootsValid &&
    optField fs "errors".data isArrV
  | _ => false

/-- Append a defaulted field when absent (zod `.optional().default(d)`). -/
def withDefault (fs : List (Str × JVal)) (k : Str) (d : JVal) : List (Str × JVal) :=
  if hasKeyF fs k then fs else fs ++ [(k, d)]

/-- `promptResponseSchema.parse`. -/
def promptParse (v : JVal) : Option JVal :=
  if promptValid v then some v else none

/-- `collectResponseSchema.parse` (defaults `collectors_used := []`,
`errors := []`). -/
def collectParse : JVal → Option JVal
  | .obj fs =>
    if collectValid (.obj fs) then
      some (.obj (withDefault (withDefault fs "collectors_used".data (.arr []))
        "errors".data (.arr [])))
    else none
  | _ => none

/-- `auditResponseSchema.parse` (defaults `errors := []`). -/
def auditParse : JVal → Option JVal
  | .obj fs =>
    if auditValid (.obj fs) then some (.obj (withDefault fs "errors".data (.arr [])))
    else none
  | _ => none

/-- `judgeResponseSchema.parse` (defaults `errors := []`). -/
def judgeParse : JVal → Option JVal
  | .obj fs =>
    if judgeValid (.obj fs) then some (.obj (withDefault fs "errors".data (.arr [])))
    else none
  | _ => none

/-- `bundleResponseSchema.parse` (defaults `errors := []`). -/
def bundleParse : JVal → Option JVal
  | .obj fs =>
    if bundleValid (.obj fs) then some (.obj (withDefault fs "errors".data (.arr [])))
    else none
  | _ => none

/-! ## Report building (`src/report.ts`) -/

/-- One entry of `evidence_highlights` (types.ts `EvidenceHighlight`). -/
structure EvidenceHighlight where
  title : Option Str
  source_url : Option Str
  snippet : Option Str

/-- The highlight built from one item of a bundle's item array
(report.ts lines 149-157). -/
def highlightOfItem (i : JVal) : EvidenceHighlight :=
  { title := asOptionalString (firstNotNullish i ["title".data, "headline".data, "name".data]),
    source_url := asOptionalString (firstNotNullish i ["source_url".data, "url".data, "link".data]),
    snippet := asOptionalString (firstNotNullish i
      ["snippet".data, "text".data, "content".data, "summary".data]) }

/-- The highlights contributed by one evidence bundle (report.ts lines
142-169): non-objects are skipped; an array found under `items` /
`evidence_items` / `results` / `snippets` contributes one highlight per
object-like item; otherwise the bundle itself is a single highlight when one
of its `title` / `snippet` / `source_url` / `url` / `text` fields is truthy. -/
def highlightsOfBundle (b : JVal) : List EvidenceHighlight :=
  if isObjectLike b = false then []
  else
    match firstNotNullish b ["items".data, "evidence_items".data, "results".data, "snippets".data] with
    | some (.arr items) => (items.filter isObjectLike).map highlightOfItem
    | _ =>
      if truthy (recordLookup b "title".data) || truthy (recordLookup b "snippet".data) ||
         truthy (recordLookup b "source_url".data) || truthy (recordLookup b "url".data) ||
         truthy (recordLookup b "text".data) then
        [{ title := asOptionalString (firstNotNullish b ["title".data, "headline".data]),
           source_url := asOptionalString (firstNotNullish b ["source_url".data, "url".data]),
           snippet := asOptionalString (firstNotNullish b
             ["snippet".data, "text".data, "summary".data]) }]
      else []

/-- Embedding of `extractEvidenceHighlights` (report.ts lines 139-173):
all bundles' highlights in order, capped by `slice(0, 10)`. -/
def extractEvidenceHighlights (bundles : List JVal) : List EvidenceHighlight :=
  (bundles.flatMap highlightsOfBundle).take 10

/-- The summary line of one reasoning step (report.ts lines 183-186):
its first string among `description`/`summary`/`step`/`text`, else the
JSON-serialization of the step. -/
def reasoningDesc (step : JVal) : Str :=
  match firstNotNullish step ["description".data, "summary".data, "step".data, "text".data] with
  | some (.str s) => s
  | _ => jsonStringify step

/-- The array branch of `extractReasoningSummary` (report.ts lines 178-187):
object-like steps only, capped by `slice(0, 10)`. -/
def extractReasoningSummaryArr (xs : List JVal) : List Str :=
  ((xs.filter isObjectLike).map reasoningDesc).take 10

/-- Embedding of `extractReasoningSummary` (report.ts lines 175-207).  The
recursive call on a `steps`/`trace`/`reasoning_steps` array always lands in
the array branch and is inlined as `extractReasoningSummaryArr`. -/
def extractReasoningSummary (t : Option JVal) : List Str :=
  if truthy t = false then []
  else
    match t with
    | some (.arr xs) => extractReasoningSummaryArr xs
    | some (.obj fs) =>
      match firstNotNullish (.obj fs) ["steps".data, "trace".data, "reasoning_steps".data] with
      | some (.arr xs) => extractReasoningSummaryArr xs
      | _ =>
        match firstNotNullish (.obj fs) ["summary".data, "text".data] with
        | some (.str s) => [s]
        | _ => []
    | some (.str s) => [s]
    | _ => []

/-- The label of one requirement entry (report.ts line 225). -/
def reqLabel (r : JVal) : Option Str :=
  asOptionalString (firstNotNullish r ["description".data, "label".data, "name".data, "id".data])

/-- Whether one requirement entry counts as met (report.ts lines 227-228). -/
def reqMet (r : JVal) : Bool :=
  truthy (firstNotNullish r ["fulfilled".data, "met".data, "satisfied".data, "passed".data])

/-- The fulfilled/unfulfilled split over a requirements array (report.ts
lines 221-234): non-objects and entries with a falsy label are skipped. -/
def extractRequirementsList (reqs : List JVal) : List Str × List Str :=
  reqs.foldl (fun acc r =>
    if isObjectLike r = false then acc
    else
      match reqLabel r with
      | none => acc
      | some s =>
        if s = [] then acc
        else if reqMet r then (acc.1 ++ [s], acc.2) else (acc.1, acc.2 ++ [s])) ([], [])

/-- Embedding of `extractRequirements` (report.ts lines 209-237). -/
def extractRequirements (judge : JVal) : List Str × List Str :=
  match recordLookup judge "verdict".data with
  | some v =>
    if isObjectLike v = false then ([], [])
    else
      match firstNotNullish v ["requirements".data, "criteria".data, "rules".data] with
      | some (.arr reqs) => extractRequirementsList reqs
      | _ => ([], [])
  | none => ([], [])

/-- Embedding of `extractResolutionRuleId` (report.ts lines 239-244). -/
def extractResolutionRuleId (judge : JVal) : Option Str :=
  match recordLookup judge "verdict".data with
  | some v =>
    if isObjectLike v = false then none
    else asOptionalString (firstNotNullish v ["resolution_rule_id".data, "rule_id".data])
  | none => none

/-- The `raw` block of the report (report.ts lines 129-135). -/
structure RawResponses where
  prompt_response : JVal
  collect_response : JVal
  audit_response : JVal
  judge_response : JVal
  bundle_response : JVal

/-- The assembled PoR report (types.ts `PorReport`). -/
structure PorReport where
  outcome : Str
  confidence : Rat
  resolution_rule_id : Option Str
  evidence_highlights : List EvidenceHighlight
  requirements_fulfilled : Option (List Str)
  requirements_unfulfilled : Option (List Str)
  reasoning_summary : List Str
  roots : JVal
  raw : RawResponses

/-- String field access on a validated response (the TS type guarantees
presence; the default is never reached on parsed data). -/
def jStrD (v : JVal) (k : Str) : Str :=
  match recordLookup v k with
  | some (.str s) => s
  | _ => []

/-- Number field access on a validated response. -/
def jNumD (v : JVal) (k : Str) : Rat :=
  match recordLookup v k with
  | some (.num q) => q
  | _ => 0

/-- Array field access on a validated response. -/
def jArrD (v : JVal) (k : Str) : List JVal :=
  match recordLookup v k with
  | some (.arr xs) => xs
  | _ => []

/-- Embedding of `buildReport` (report.ts lines 108-137). -/
def buildReport (prompt collect audit judge bundle : JVal) : PorReport :=
  let fu := extractRequirements judge
  { outcome := jStrD judge "outcome".data,
    confidence := jNumD judge "confidence".data,
    resolution_rule_id := extractResolutionRuleId judge,
    evidence_highlights := extractEvidenceHighlights (jArrD collect "evidence_bundles".data),
    requirements_fulfilled := if 0 < fu.1.length then some fu.1 else none,
    requirements_unfulfilled := if 0 < fu.2.length then some fu.2 else none,
    reasoning_summary := extractReasoningSummary (recordLookup audit "reasoning_trace".data),
    roots := (recordLookup bundle "roots".data).getD .null,
    raw := { prompt_response := prompt, collect_response := collect,
             audit_response := audit, judge_response := judge,
             bundle_response := bundle } }

/-! ## Step sequencer (`pipeline.ts`) -/

/-- Embedding of `extractData` (pipeline.ts lines 24-29): unwrap a possible
single-level `{data: …}` envelope.  Arrays and null fall through to the raw
value (for JSON data, `'data' in raw` only holds for objects carrying the
key). -/
def extractData (raw : JVal) : JVal :=
  match raw with
  | .obj fs =>
    match lookupF fs "data".data with
    | some v => v
    | none => raw
  | _ => raw

/-- Options of `runPipeline` (types.ts `PipelineOptions`). -/
structure PipelineOptions where
  query : Str
  code : Str
  collectors : Option (List Str)
  strict_mode : Option Bool
  include_raw_content : Option Bool

/-- A pipeline failure: a propagated gateway error or a zod validation
failure at the named step. -/
inductive PipeFailure where
  | gatewayError (e : JsError)
  | validationFailure (step : Str)

/-- Result of one pipeline run plus its accumulated transport trace. -/
structure PipelineOut where
  result : Except PipeFailure PorReport
  trace : List Event

/-- Embedding of `runPipeline` (pipeline.ts lines 34-100): five sequential
calls in the fixed order prompt → collect → audit → judge → bundle, each
response unwrapped by `extractData` and validated by its step schema, the
parsed outputs threaded into the next payload and finally folded by
`buildReport`.  The transport invocation counter is threaded through the
`start` indices; absent unknown-typed fields of a parsed response are
modelled as JSON null in the next payload (`JVal` has no `undefined`; no
claim inspects these payload values). -/
def runPipeline (opts : PipelineOptions) (fetch : Nat → TransportRequest → FetchOutcome) :
    PipelineOut :=
  let collectors := opts.collectors.getD ["CollectorGeminiGrounded".data]
  let strictMode := opts.strict_mode.getD false
  let includeRaw := opts.include_raw_content.getD false
  let c1 := GatewayClient.call opts.code "/step/prompt".data "POST".data
    (.obj [("user_input".data, .str opts.query), ("strict_mode".data, .bool strictMode)])
    fetch 0
  match c1.result with
  | .error e => { result := .error (.gatewayError e), trace := c1.trace }
  | .ok raw1 =>
    match promptParse (extractData raw1) with
    | none => { result := .error (.validationFailure "/step/prompt".data), trace := c1.trace }
    | some promptResponse =>
      let c2 := GatewayClient.call opts.code "/step/collect".data "POST".data
        (.obj [("prompt_spec".data, (recordLookup promptResponse "prompt_spec".data).getD .null),
               ("tool_plan".data, (recordLookup promptResponse "tool_plan".data).getD .null),
               ("collectors".data, .arr (collectors.map .str)),
               ("include_raw_content".data, .bool includeRaw)])
        fetch (countRequests c1.trace)
      match c2.result with
      | .error e => { result := .error (.gatewayError e), trace := c1.trace ++ c2.trace }
      | .ok raw2 =>
        match collectParse (extractData raw2) with
        | none => { result := .error (.validationFailure "/step/collect".data),
                    trace := c1.trace ++ c2.trace }
        | some collectResponse =>
          let c3 := GatewayClient.call opts.code "/step/audit".data "POST".data
            (.obj [("prompt_spec".data, (recordLookup promptResponse "prompt_spec".data).getD .null),
                   ("evidence_bundles".data,
                     (recordLookup collectResponse "evidence_bundles".data).getD .null)])
            fetch (countRequests c1.trace + countRequests c2.trace)
          match c3.result with
          | .error e => { result := .error (.gatewayError e),
                          trace := c1.trace ++ c2.trace ++ c3.trace }
          | .ok raw3 =>
            match auditParse (extractData raw3) with
            | none => { result := .error (.validationFailure "/step/audit".data),
                        trace := c1.trace ++ c2.trace ++ c3.trace }
            | some auditResponse =>
              let c4 := GatewayClient.call opts.code "/step/judge".data "POST".data
                (.obj [("prompt_spec".data,
                         (recordLookup promptResponse "prompt_spec".data).getD .null),
                       ("evidence_bundles".data,
                         (recordLookup collectResponse "evidence_bundles".data).getD .null),
                       ("reasoning_trace".data,
                         (recordLookup auditResponse "reasoning_trace".data).getD .null)])
                fetch (countRequests c1.trace + countRequests c2.trace + countRequests c3.trace)
              match c4.result with
              | .error e => { result := .error (.gatewayError e),
                              trace := c1.trace ++ c2.trace ++ c3.trace ++ c4.trace }
              | .ok raw4 =>
                match judgeParse (extractData raw4) with
                | none => { result := .error (.validationFailure "/step/judge".data),
                            trace := c1.trace ++ c2.trace ++ c3.trace ++ c4.trace }
                | some judgeResponse =>
                  let c5 := GatewayClient.call opts.code "/step/bundle".data "POST".data
                    (.obj [("prompt_spec".data,
                             (recordLookup promptResponse "prompt_spec".data).getD .null),
                           ("evidence_bundles".data,
                             (recordLookup collectResponse "evidence_bundles".data).getD .null),
                           ("reasoning_trace".data,
                             (recordLookup auditResponse "reasoning_trace".data).getD .null),
                           ("verdict".data,
                             (recordLookup judgeResponse "verdict".data).getD .null)])
                    fetch (countRequests c1.trace + countRequests c2.trace +
                      countRequests c3.trace + countRequests c4.trace)
                  match c5.result with
                  | .error e => { result := .error (.gatewayError e),
                                  trace := c1.trace ++ c2.trace ++ c3.trace ++ c4.trace ++ c5.trace }
                  | .ok raw5 =>
                    match bundleParse (extractData raw5) with
                    | none => { result := .error (.validationFailure "/step/bundle".data),
                                trace := c1.trace ++ c2.trace ++ c3.trace ++ c4.trace ++ c5.trace }
                    | some bundleResponse =>
                      { result := .ok (buildReport promptResponse collectResponse
                          auditResponse judgeResponse bundleResponse),
                        trace := c1.trace ++ c2.trace ++ c3.trace ++ c4.trace ++ c5.trace }

/-- Whether a decoded body is an object carrying a `data` field. -/
def hasDataField : JVal → Bool
  | .obj fs => hasKeyF fs "data".data
  | _ => false

theorem extractData_of_no_data {v : JVal} (h : hasDataField v = false) :
    extractData v = v := by
  cases v with
  | obj fs =>
    simp [hasDataField, hasKeyF, Option.isSome_iff_exists] at h
    simp [extractData, h]
  | null => rfl
  | bool b => rfl
  | num q => rfl
  | str s => rfl
  | arr xs => rfl

/-- C9: the sequencer validates `extractData` of each decoded body: an
object carrying a `data` field is unwrapped to that field's value, anything
else validates as-is — so an unwrapped response (no `data` field) with a
valid top-level shape still validates successfully for every one of the five
steps. -/
theorem extractData_unwraps_and_validates (v : JVal) :
    (∀ fs u, v = .obj fs → lookupF fs "data".data = some u → extractData v = u) ∧
    (hasDataField v = false → extractData v = v) ∧
    (hasDataField v = false → promptValid v = true → (promptParse (extractData v)).isSome = true) ∧
    (hasDataField v = false → collectValid v = true → (collectParse (extractData v)).isSome = true) ∧
    (hasDataField v = false → auditValid v = true → (auditParse (extractData v)).isSome = true) ∧
    (hasDataField v = false → judgeValid v = true → (judgeParse (extractData v)).isSome = true) ∧
    (hasDataField v = false → bundleValid v = true → (bundleParse (extractData v)).isSome = true) := by
  refine ⟨?_, extractData_of_no_data, ?_, ?_, ?_, ?_, ?_⟩
  · intro fs u hv hl
    subst hv
    simp [extractData, hl]
  · intro hnd hval
    rw [extractData_of_no_data hnd, promptParse, hval]
    rfl
  · intro hnd hval
    rw [extractData_of_no_data hnd]
    cases v with
    | obj fs => simp [collectParse, hval]
    | null => simp [collectValid] at hval
    | bool b => simp [collectValid] at hval
    | num q => simp [collectValid] at hval
    | str s => simp [collectValid] at hval
    | arr xs => simp [collectValid] at hval
  · intro hnd hval
    rw [extractData_of_no_data hnd]
    cases v with
    | obj fs => simp [auditParse, hval]
    | null => simp [auditValid] at hval
    | bool b => simp [auditValid] at hval
    | num q => simp [auditValid] at hval
    | str s => simp [auditValid] at hval
    | arr xs => simp [auditValid] at hval
  · intro hnd hval
    rw [extractData_of_no_data hnd]
    cases v with
    | obj fs => simp [judgeParse, hval]
    | null => simp [judgeValid] at hval
    | bool b => simp [judgeValid] at hval
    | num q => simp [judgeValid] at hval
    | str s => simp [judgeValid] at hval
    | arr xs => simp [judgeValid] at hval
  · intro hnd hval
    rw [extractData_of_no_data hnd]
    cases v with
    | obj fs => simp [bundleParse, hval]
    | null => simp [bundleValid] at hval
    | bool b => simp [bundleValid] at hval
    | num q => simp [bundleValid] at hval
    | str s => simp [bundleValid] at hval
    | arr xs => simp [bundleValid] at hval

/-- Witness for C9: a wrapped body is unwrapped to its `data` value, and a
concrete unwrapped body that satisfies all five step shapes validates for
every step. -/
theorem extractData_unwraps_and_validates_witness :
    extractData (.obj [("data".data, .str "x".data)]) = .str "x".data ∧
    (promptParse (extractData (.obj [("evidence_bundles".data, .arr []),
      ("outcome".data, .str "YES".data), ("confidence".data, .num 1),
      ("por_root".data, .str "r".data),
      ("roots".data, .obj [("prompt_spec_hash".data, .str "h1".data),
        ("evidence_root".data, .str "h2".data),
        ("reasoning_root".data, .str "h3".data),
        ("por_root".data, .str "h4".data)])]))).isSome = true ∧
    (collectParse (extractData (.obj [("evidence_bundles".data, .arr []),
      ("outcome".data, .str "YES".data), ("confidence".data, .num 1),
      ("por_root".data, .str "r".data),
      ("roots".data, .obj [("prompt_spec_hash".data, .str "h1".data),
        ("evidence_root".data, .str "h2".data),
        ("reasoning_root".data, .str "h3".data),
        ("por_root".data, .str "h4".data)])]))).isSome = true ∧
    (auditParse (extractData (.obj [("evidence_bundles".data, .arr []),
      ("outcome".data, .str "YES".data), ("confidence".data, .num 1),
      ("por_root".data, .str "r".data),
      ("roots".data, .obj [("prompt_spec_hash".data, .str "h1".data),
        ("evidence_root".data, .str "h2".data),
        ("reasoning_root".data, .str "h3".data),
        ("por_root".data, .str "h4".data)])]))).isSome = true ∧
    (judgeParse (extractData (.obj [("evidence_bundles".data, .arr []),
      ("outcome".data, .str "YES".data), ("confidence".data, .num 1),
      ("por_root".data, .str "r".data),
      ("roots".data, .obj [("prompt_spec_hash".data, .str "h1".data),
        ("evidence_root".data, .str "h2".data),
        ("reasoning_root".data, .str "h3".data),
        ("por_root".data, .str "h4".data)])]))).isSome = true ∧
    (bundleParse (extractData (.obj [("evidence_bundles".data, .arr []),
      ("outcome".data, .str "YES".data), ("confidence".data, .num 1),
      ("por_root".data, .str "r".data),
      ("roots".data, .obj [("prompt_spec_hash".data, .str "h1".data),
        ("evidence_root".data, .str "h2".data),
        ("reasoning_root".data, .str "h3".data),
        ("por_root".data, .str "h4".data)])]))).isSome = true :=
  ⟨(extractData_unwraps_and_validates (.obj [("data".data, .str "x".data)])).1
      [("data".data, .str "x".data)] (.str "x".data) rfl rfl,
   (extractData_unwraps_and_validates _).2.2.1 (by decide) (by decide),
   (extractData_unwraps_and_validates _).2.2.2.1 (by decide) (by decide),
   (extractData_unwraps_and_validates _).2.2.2.2.1 (by decide) (by decide),
   (extractData_unwraps_and_validates _).2.2.2.2.2.1 (by decide) (by decide),
   (extractData_unwraps_and_validates _).2.2.2.2.2.2 (by decide) (by decide)⟩

theorem extractReasoningSummaryArr_le (xs : List JVal) :
    (extractReasoningSummaryArr xs).length ≤ 10 := by
  rw [extractReasoningSummaryArr]
  simp [List.length_take]

theorem extractReasoningSummary_le (t : Option JVal) :
    (extractReasoningSummary t).length ≤ 10 := by
  cases t with
  | none => simp [extractReasoningSummary, truthy]
  | some v =>
    cases v with
    | null => simp [extractReasoningSummary, truthy]
    | bool b => cases b <;> simp [extractReasoningSummary, truthy]
    | num q => by_cases hq : q = 0 <;> simp [extractReasoningSummary, truthy, hq]
    | str s => by_cases hs : s = ([] : Str) <;> simp [extractReasoningSummary, truthy, hs]
    | arr xs => simpa [extractReasoningSummary, truthy] using extractReasoningSummaryArr_le xs
    | obj fs =>
      rw [extractReasoningSummary]
      rw [if_neg (by simp [truthy])]
      cases h1 : firstNotNullish (.obj fs) ["steps".data, "trace".data, "reasoning_steps".data] with
      | none =>
        cases h2 : firstNotNullish (.obj fs) ["summary".data, "text".data] with
        | none => simp [h1, h2]
        | some w => cases w <;> simp [h1, h2]
      | some u =>
        cases u with
        | arr xs => simpa [h1] using extractReasoningSummaryArr_le xs
        | null =>
          cases h2 : firstNotNullish (.obj fs) ["summary".data, "text".data] with
          | none => simp [h1, h2]
          | some w => cases w <;> simp [h1, h2]
        | bool b =>
          cases h2 : firstNotNullish (.obj fs) ["summary".data, "text".data] with
          | none => simp [h1, h2]
          | some w => cases w <;> simp [h1, h2]
        | num q =>
          cases h2 : firstNotNullish (.obj fs) ["summary".data, "text".data] with
          | none => simp [h1, h2]
          | some w => cases w <;> simp [h1, h2]
        | str s =>
          cases h2 : firstNotNullish (.obj fs) ["summary".data, "text".data] with
          | none => simp [h1, h2]
          | some w => cases w <;> simp [h1, h2]
        | obj gs =>
          cases h2 : firstNotNullish (.obj fs) ["summary".data, "text".data] with
          | none => simp [h1, h2]
          | some w => cases w <;> simp [h1, h2]


/-- C10: whatever the five step responses, the report built by `buildReport`
carries at most 10 evidence highlights and at most 10 reasoning summary
entries, even when the evidence bundles or the reasoning trace supply more
items. -/
theorem buildReport_caps_highlights_and_summary (p c a j b : JVal) :
    (buildReport p c a j b).evidence_highlights.length ≤ 10 ∧
    (buildReport p c a j b).reasoning_summary.length ≤ 10 := by
  constructor
  · show (extractEvidenceHighlights (jArrD c "evidence_bundles".data)).length ≤ 10
    rw [extractEvidenceHighlights]
    simp [List.length_take]
  · exact extractReasoningSummary_le (recordLookup a "reasoning_trace".data)

@[simp]
theorem countRequests_nil : countRequests [] = 0 := rfl

@[simp]
theorem countRequests_cons_request (e : GatewayEnvelope) (r : TransportRequest)
    (tr : List Event) :
    countRequests (Event.request e r :: tr) = countRequests tr + 1 := by
  simp [countRequests]

@[simp]
theorem countRequests_cons_sleep (ms : Nat) (tr : List Event) :
    countRequests (Event.sleep ms :: tr) = countRequests tr := by
  simp [countRequests]

theorem call_first_ok (code path method : Str) (payload : JVal)
    (fetch : Nat → TransportRequest → FetchOutcome) (start : Nat) (resp : HttpResponse)
    (hf : fetch start (wireRequest (buildEnvelope code path method payload)) = .success resp)
    (hok : respOk resp = true) :
    GatewayClient.call code path method payload fetch start =
      { result := .ok resp.bodyJson,
        trace := [Event.request (buildEnvelope code path method payload)
          (wireRequest (buildEnvelope code path method payload))] } := by
  show callGo (buildEnvelope code path method payload)
      (wireRequest (buildEnvelope code path method payload))
      (fun a => fetch (start + a) (wireRequest (buildEnvelope code path method payload)))
      0 3 none = _
  rw [callGo_ok_step (by simpa using hf) hok]
  simp

/-- C3: for any transport whose five step responses are successes whose
decoded bodies validate for their steps and supply outcome `"YES"`,
confidence `0.85`, resolution rule id `"RULE-001"` and a roots object of
four hash strings, `runPipeline` issues exactly five gateway calls in the
fixed path order `/step/prompt`, `/step/collect`, `/step/audit`,
`/step/judge`, `/step/bundle`, and the returned report's `outcome`,
`confidence`, `resolution_rule_id` and `roots` fields equal those response
values exactly. -/
theorem runPipeline_end_to_end
    (opts : PipelineOptions) (fetch : Nat → TransportRequest → FetchOutcome)
    (r1 r2 r3 r4 r5 : HttpResponse) (p1 p2 p3 p4 p5 : JVal)
    (vfs : List (Str × JVal)) (hs1 hs2 hs3 hs4 : Str)
    (hf0 : ∀ q, fetch 0 q = .success r1) (hok1 : respOk r1 = true)
    (hf1 : ∀ q, fetch 1 q = .success r2) (hok2 : respOk r2 = true)
    (hf2 : ∀ q, fetch 2 q = .success r3) (hok3 : respOk r3 = true)
    (hf3 : ∀ q, fetch 3 q = .success r4) (hok4 : respOk r4 = true)
    (hf4 : ∀ q, fetch 4 q = .success r5) (hok5 : respOk r5 = true)
    (hp1 : promptParse (extractData r1.bodyJson) = some p1)
    (hp2 : collectParse (extractData r2.bodyJson) = some p2)
    (hp3 : auditParse (extractData r3.bodyJson) = some p3)
    (hp4 : judgeParse (extractData r4.bodyJson) = some p4)
    (hp5 : bundleParse (extractData r5.bodyJson) = some p5)
    (houtcome : recordLookup p4 "outcome".data = some (.str "YES".data))
    (hconf : recordLookup p4 "confidence".data = some (.num (0.85 : Rat)))
    (hverdict : recordLookup p4 "verdict".data = some (.obj vfs))
    (hrule : lookupF vfs "resolution_rule_id".data = some (.str "RULE-001".data))
    (hroots : recordLookup p5 "roots".data = some (.obj
      [("prompt_spec_hash".data, .str hs1), ("evidence_root".data, .str hs2),
       ("reasoning_root".data, .str hs3), ("por_root".data, .str hs4)])) :
    ∃ rep, (runPipeline opts fetch).result = .ok rep ∧
      rep.outcome = "YES".data ∧
      rep.confidence = (0.85 : Rat) ∧
      rep.resolution_rule_id = some "RULE-001".data ∧
      rep.roots = .obj
        [("prompt_spec_hash".data, .str hs1), ("evidence_root".data, .str hs2),
         ("reasoning_root".data, .str hs3), ("por_root".data, .str hs4)] ∧
      requestPaths (runPipeline opts fetch).trace =
        ["/step/prompt".data, "/step/collect".data, "/step/audit".data,
         "/step/judge".data, "/step/bundle".data] := by
  have e1 : ∀ pl, GatewayClient.call opts.code "/step/prompt".data "POST".data pl fetch 0 =
      { result := .ok r1.bodyJson,
        trace := [Event.request (buildEnvelope opts.code "/step/prompt".data "POST".data pl)
          (wireRequest (buildEnvelope opts.code "/step/prompt".data "POST".data pl))] } :=
    fun pl => call_first_ok _ _ _ pl fetch 0 r1 (hf0 _) hok1
  have e2 : ∀ pl, GatewayClient.call opts.code "/step/collect".data "POST".data pl fetch 1 =
      { result := .ok r2.bodyJson,
        trace := [Event.request (buildEnvelope opts.code "/step/collect".data "POST".data pl)
          (wireRequest (buildEnvelope opts.code "/step/collect".data "POST".data pl))] } :=
    fun pl => call_first_ok _ _ _ pl fetch 1 r2 (hf1 _) hok2
  have e3 : ∀ pl, GatewayClient.call opts.code "/step/audit".data "POST".data pl fetch 2 =
      { result := .ok r3.bodyJson,
        trace := [Event.request (buildEnvelope opts.code "/step/audit".data "POST".data pl)
          (wireRequest (buildEnvelope opts.code "/step/audit".data "POST".data pl))] } :=
    fun pl => call_first_ok _ _ _ pl fetch 2 r3 (hf2 _) hok3
  have e4 : ∀ pl, GatewayClient.call opts.code "/step/judge".data "POST".data pl fetch 3 =
      { result := .ok r4.bodyJson,
        trace := [Event.request (buildEnvelope opts.code "/step/judge".data "POST".data pl)
          (wireRequest (buildEnvelope opts.code "/step/judge".data "POST".data pl))] } :=
    fun pl => call_first_ok _ _ _ pl fetch 3 r4 (hf3 _) hok4
  have e5 : ∀ pl, GatewayClient.call opts.code "/step/bundle".data "POST".data pl fetch 4 =
      { result := .ok r5.bodyJson,
        trace := [Event.request (buildEnvelope opts.code "/step/bundle".data "POST".data pl)
          (wireRequest (buildEnvelope opts.code "/step/bundle".data "POST".data pl))] } :=
    fun pl => call_first_ok _ _ _ pl fetch 4 r5 (hf4 _) hok5
  refine ⟨buildReport p1 p2 p3 p4 p5, ?_, ?_, ?_, ?_, ?_, ?_⟩
  · rw [runPipeline]
    simp [e1, hp1, e2, hp2, e3, hp3, e4, hp4, e5, hp5]
  · show jStrD p4 "outcome".data = "YES".data
    rw [jStrD, houtcome]
  · show jNumD p4 "confidence".data = (0.85 : Rat)
    rw [jNumD, hconf]
  · show extractResolutionRuleId p4 = some "RULE-001".data
    rw [extractResolutionRuleId, hverdict]
    simp [isObjectLike, firstNotNullish, recordLookup, hrule, asOptionalString]
  · show (recordLookup p5 "roots".data).getD .null = _
    rw [hroots]
    rfl
  · rw [runPipeline]
    simp [e1, hp1, e2, hp2, e3, hp3, e4, hp4, e5, hp5, requestPaths, buildEnvelope]

/-- Witness for C3: concrete unwrapped mock responses for the five steps
(outcome `"YES"`, confidence `0.85`, rule id `"RULE-001"`, four hash
strings) produce a report with exactly those fields, in the fixed call
order. -/
theorem runPipeline_end_to_end_witness :
    ∃ rep, (runPipeline (PipelineOptions.mk "q".data "k".data none none none)
        (fun n _ => FetchOutcome.success (HttpResponse.mk 200 []
          (if n = 0 then JVal.obj [("prompt_spec".data, .str "ps".data), ("tool_plan".data, .null)]
           else if n = 1 then JVal.obj [("evidence_bundles".data, .arr [])]
           else if n = 2 then JVal.obj [("reasoning_trace".data, .null)]
           else if n = 3 then JVal.obj
             [("verdict".data, .obj [("resolution_rule_id".data, .str "RULE-001".data)]),
              ("outcome".data, .str "YES".data), ("confidence".data, .num (0.85 : Rat))]
           else JVal.obj [("por_root".data, .str "0xr".data),
             ("roots".data, .obj
               [("prompt_spec_hash".data, .str "0h1".data),
                ("evidence_root".data, .str "0h2".data),
                ("reasoning_root".data, .str "0h3".data),
                ("por_root".data, .str "0xr".data)])])))).result = .ok rep ∧
      rep.outcome = "YES".data ∧
      rep.confidence = (0.85 : Rat) ∧
      rep.resolution_rule_id = some "RULE-001".data ∧
      rep.roots = .obj
        [("prompt_spec_hash".data, .str "0h1".data),
         ("evidence_root".data, .str "0h2".data),
         ("reasoning_root".data, .str "0h3".data),
         ("por_root".data, .str "0xr".data)] ∧
      requestPaths (runPipeline (PipelineOptions.mk "q".data "k".data none none none)
        (fun n _ => FetchOutcome.success (HttpResponse.mk 200 []
          (if n = 0 then JVal.obj [("prompt_spec".data, .str "ps".data), ("tool_plan".data, .null)]
           else if n = 1 then JVal.obj [("evidence_bundles".data, .arr [])]
           else if n = 2 then JVal.obj [("reasoning_trace".data, .null)]
           else if n = 3 then JVal.obj
             [("verdict".data, .obj [("resolution_rule_id".data, .str "RULE-001".data)]),
              ("outcome".data, .str "YES".data), ("confidence".data, .num (0.85 : Rat))]
           else JVal.obj [("por_root".data, .str "0xr".data),
             ("roots".data, .obj
               [("prompt_spec_hash".data, .str "0h1".data),
                ("evidence_root".data, .str "0h2".data),
                ("reasoning_root".data, .str "0h3".data),
                ("por_root".data, .str "0xr".data)])])))).trace =
        ["/step/prompt".data, "/step/collect".data, "/step/audit".data,
         "/step/judge".data, "/step/bundle".data] :=
  runPipeline_end_to_end
    (PipelineOptions.mk "q".data "k".data none none none)
    (fun n _ => FetchOutcome.success (HttpResponse.mk 200 []
      (if n = 0 then JVal.obj [("prompt_spec".data, .str "ps".data), ("tool_plan".data, .null)]
       else if n = 1 then JVal.obj [("evidence_bundles".data, .arr [])]
       else if n = 2 then JVal.obj [("reasoning_trace".data, .null)]
       else if n = 3 then JVal.obj
         [("verdict".data, .obj [("resolution_rule_id".data, .str "RULE-001".data)]),
          ("outcome".data, .str "YES".data), ("confidence".data, .num (0.85 : Rat))]
       else JVal.obj [("por_root".data, .str "0xr".data),
         ("roots".data, .obj
           [("prompt_spec_hash".data, .str "0h1".data),
            ("evidence_root".data, .str "0h2".data),
            ("reasoning_root".data, .str "0h3".data),
            ("por_root".data, .str "0xr".data)])])))
    (HttpResponse.mk 200 []
      (JVal.obj [("prompt_spec".data, .str "ps".data), ("tool_plan".data, .null)]))
    (HttpResponse.mk 200 [] (JVal.obj [("evidence_bundles".data, .arr [])]))
    (HttpResponse.mk 200 [] (JVal.obj [("reasoning_trace".data, .null)]))
    (HttpResponse.mk 200 [] (JVal.obj
      [("verdict".data, .obj [("resolution_rule_id".data, .str "RULE-001".data)]),
       ("outcome".data, .str "YES".data), ("confidence".data, .num (0.85 : Rat))]))
    (HttpResponse.mk 200 [] (JVal.obj [("por_root".data, .str "0xr".data),
      ("roots".data, .obj
        [("prompt_spec_hash".data, .str "0h1".data),
         ("evidence_root".data, .str "0h2".data),
         ("reasoning_root".data, .str "0h3".data),
         ("por_root".data, .str "0xr".data)])]))
    (.obj [("prompt_spec".data, .str "ps".data), ("tool_plan".data, .null)])
    (.obj [("evidence_bundles".data, .arr []), ("collectors_used".data, .arr []),
      ("errors".data, .arr [])])
    (.obj [("reasoning_trace".data, .null), ("errors".data, .arr [])])
    (.obj [("verdict".data, .obj [("resolution_rule_id".data, .str "RULE-001".data)]),
      ("outcome".data, .str "YES".data), ("confidence".data, .num (0.85 : Rat)),
      ("errors".data, .arr [])])
    (.obj [("por_root".data, .str "0xr".data),
      ("roots".data, .obj
        [("prompt_spec_hash".data, .str "0h1".data),
         ("evidence_root".data, .str "0h2".data),
         ("reasoning_root".data, .str "0h3".data),
         ("por_root".data, .str "0xr".data)]),
      ("errors".data, .arr [])])
    [("resolution_rule_id".data, .str "RULE-001".data)]
    "0h1".data "0h2".data "0h3".data "0xr".data
    (fun _ => rfl) rfl (fun _ => rfl) rfl (fun _ => rfl) rfl
    (fun _ => rfl) rfl (fun _ => rfl) rfl
    rfl rfl rfl rfl rfl
    rfl rfl rfl rfl rfl
